import Mathlib

/-!
Verification of the EventSub chat bot (`bot.py`) against its specification.

The development shallowly embeds the parts of the program the claims touch:

* the Python string primitives the command processor relies on
  (`str.strip`, `str.lower`, `str.startswith`, slicing, `str.split`,
  `str.isdigit`, `int`, `str.lstrip`, `str.join`, `x or y`);
* the command processor `EventSubBot._commands` together with the
  `!lights` cooldown gate and the `!prize` argument parser;
* the rich-text flattener `extract_plain_text_from_message`;
* the outbound rate limiter `EventSubBot._reply` (timestamps as rationals);
* the session loop of `EventSubBot.run`, `EventSubBot._on_connected` and
  `EventSubBot._handle_message` (frames as an inductive type); and
* the error behavior of `send_chat` / `create_subscription` and the
  `except` clauses of `EventSubBot.run`.
-/

namespace TwitchBot

/-! ### Python string primitives -/

/-- The ASCII whitespace characters removed by `str.strip()` and used by
`str.split()`. -/
def isPySpace (c : Char) : Bool :=
  c == ' ' || c == '\t' || c == '\n' || c == '\r' || c == '\x0b' || c == '\x0c'

/-- Character-list core of `str.strip()`: drop leading and trailing
whitespace. -/
def stripChars (l : List Char) : List Char :=
  List.rdropWhile isPySpace (List.dropWhile isPySpace l)

/-- Python `s.strip()` (ASCII whitespace). -/
def pyStrip (s : String) : String :=
  ⟨stripChars s.data⟩

/-- Python `s.lower()` (ASCII case folding, which covers every character the
program compares against). -/
def pyLower (s : String) : String :=
  ⟨s.data.map Char.toLower⟩

/-- Python `s.startswith(pre)`. -/
def strStarts (s pre : String) : Bool :=
  s.data.take pre.data.length == pre.data

/-- Python `s[n:]` (slicing counts code points, as `List Char` does). -/
def strDrop (s : String) (n : Nat) : String :=
  ⟨s.data.drop n⟩

/-- Helper for `str.split()`: walk the characters, accumulating the current
word (reversed) and emitting it at each whitespace run. -/
def pySplitChars : List Char → List Char → List String
  | [], cur => if cur.isEmpty then [] else [⟨cur.reverse⟩]
  | c :: rest, cur =>
    if isPySpace c then
      if cur.isEmpty then pySplitChars rest []
      else ⟨cur.reverse⟩ :: pySplitChars rest []
    else pySplitChars rest (c :: cur)

/-- Python `s.split()` with no argument: split on whitespace runs, discarding
empty fields. -/
def pySplit (s : String) : List String :=
  pySplitChars s.data []

/-- Python `s.isdigit()` over ASCII: nonempty and all digits. -/
def pyIsDigit (s : String) : Bool :=
  !s.data.isEmpty && s.data.all Char.isDigit

/-- Python `int(s)` for a digit string. -/
def pyInt (s : String) : Nat :=
  s.data.foldl (fun n c => 10 * n + (c.toNat - 48)) 0

/-- Python `x or d` for an optional string: `None` and `""` are falsy. -/
def pyOr (x : Option String) (d : String) : String :=
  match x with
  | none => d
  | some s => if s = "" then d else s

/-- Python `sep.join(parts)`. -/
def pyJoin (sep : String) : List String → String
  | [] => ""
  | [x] => x
  | x :: xs => x ++ sep ++ pyJoin sep xs

/-- Python `int(x // 60)` on nonnegative floats, as used for the cooldown
minutes: floor division already yields an integral value, so the `int`
conversion is the floor. -/
def pyFloorDiv (a b : ℚ) : ℤ :=
  Int.floor (a / b)

/-- Python `int(x % 60)` on floats with a positive divisor: the float
modulus is `a - b * (a // b)`, which lies in `[0, b)`, so `int` truncation
coincides with the floor. -/
def pyFloorMod (a b : ℚ) : ℤ :=
  Int.floor (a - b * Int.floor (a / b))

/-! ### Command processor (`EventSubBot._commands`, bot.py lines 244-297)

Inputs that the Python method reads from object or global state are passed
explicitly: the `_last_lights` cooldown marker, the current `time.time()`
value, the result the lights passthrough would return if called, and the
stream of phrases `generate_prize()` would return.  The outcome records the
single optional reply handed to `_reply`, the optional argument passed to
`set_lights_passthrough`, and the new `_last_lights` value. -/

/-- Observable outcome of one `_commands` invocation. -/
structure CmdOutcome where
  reply : Option String
  lightsCall : Option String
  lastLights : ℚ
deriving DecidableEq

/-- The `!lights <value>` branch of `_commands` (bot.py lines 253-276).
`arg` is the already-stripped text after the command word, `res` is the
`(ok, message)` pair `set_lights_passthrough` would return. -/
def lightsCommand (lastLights now : ℚ) (arg : String) (res : Bool × String) :
    CmdOutcome :=
  if arg = "" then
    ⟨some "Usage: !lights <colour name or #hex>", none, lastLights⟩
  else
    if 0 < (300 : ℚ) - (now - lastLights) then
      ⟨some ("Lights cooldown: try again in "
          ++ toString (pyFloorDiv ((300 : ℚ) - (now - lastLights)) 60) ++ "m "
          ++ toString (pyFloorMod ((300 : ℚ) - (now - lastLights)) 60) ++ "s"),
        none, lastLights⟩
    else
      if res.1 then ⟨some ("Lights set to " ++ arg), some arg, now⟩
      else ⟨some ("Lights error: " ++ res.2), some arg, lastLights⟩

/-- The recipient/count parse of the `!prize` branch (bot.py lines 281-291),
including the final clamp `max(1, min(5, count))`. -/
def prizeRecipientCount (t : String) (chatter : Option String) :
    String × Nat :=
  let parts := pySplit t
  let recipient := pyOr chatter "someone"
  let rc :=
    if 2 ≤ parts.length then
      if pyIsDigit (parts.getD 1 "") = true then
        (recipient, pyInt (parts.getD 1 ""))
      else
        let r := (parts.getD 1 "").data.dropWhile (fun c => c == '@')
        let recipient2 := if r.isEmpty then recipient else String.mk r
        if 3 ≤ parts.length ∧ pyIsDigit (parts.getD 2 "") = true then
          (recipient2, pyInt (parts.getD 2 ""))
        else (recipient2, 1)
    else (recipient, 1)
  (rc.1, max 1 (min 5 rc.2))

/-- The `!prize` branch of `_commands` (bot.py lines 280-297): generate the
clamped number of phrases (the `i`-th call of `generate_prize()` yields
`g i`) and format the reply. -/
def prizeCommand (t : String) (chatter : Option String) (g : Nat → String) :
    String :=
  let rc := prizeRecipientCount t chatter
  let prizes := (List.range rc.2).map g
  if rc.2 = 1 then rc.1 ++ " receives a prize: " ++ prizes.getD 0 ""
  else rc.1 ++ " receives prizes: " ++ pyJoin "; " prizes

/-- Dispatch on the stripped text (`_commands` after `t = (text or "").strip()`). -/
def dispatch (t : String) (chatter : Option String) (lastLights now : ℚ)
    (res : Bool × String) (g : Nat → String) : CmdOutcome :=
  if strStarts t "!" = true then
    if pyLower t = "!hello" then
      ⟨some "Hey there! o/", none, lastLights⟩
    else if strStarts (pyLower t) "!echo " = true then
      ⟨some (strDrop t 6), none, lastLights⟩
    else if strStarts (pyLower t) "!lights" = true then
      lightsCommand lastLights now (pyStrip (strDrop t 7)) res
    else if pyLower t = "!help" then
      ⟨some "Commands: !hello, !echo <text>, !prize", none, lastLights⟩
    else if strStarts (pyLower t) "!prize" = true then
      ⟨some (prizeCommand t chatter g), none, lastLights⟩
    else ⟨none, none, lastLights⟩
  else ⟨none, none, lastLights⟩

/-- `EventSubBot._commands` (bot.py lines 244-297). -/
def commands (text : Option String) (chatter : Option String)
    (lastLights now : ℚ) (res : Bool × String) (g : Nat → String) :
    CmdOutcome :=
  dispatch (pyStrip (text.getD "")) chatter lastLights now res g

/-! ### Rich-text flattener (`extract_plain_text_from_message`, bot.py lines 310-318) -/

/-- One entry of the `fragments` array of a structured chat message; both
JSON keys may be absent. -/
structure Fragment where
  type : Option String
  text : Option String
deriving DecidableEq

/-- The `message` object of a chat notification: a `fragments` array plus an
optional top-level `text` field. -/
structure MessageObj where
  fragments : List Fragment
  text : Option String
deriving DecidableEq

/-- `extract_plain_text_from_message` (bot.py lines 310-318): collect
`f.get("text", "")` from every fragment (the two branches of the source
append the same thing), join them with the empty separator if any fragment
exists, otherwise fall back to `message_obj.get("text") or ""`. -/
def extract_plain_text_from_message (m : MessageObj) : String :=
  let parts := m.fragments.map
    (fun f => if f.type = some "text" then f.text.getD "" else f.text.getD "")
  if parts = [] then pyOr m.text "" else pyJoin "" parts

/-! ### Outbound rate limiter (`EventSubBot._reply`, bot.py lines 299-305)

Timestamps are rationals.  `_reply` reads `now = time.time()`, sleeps out
any remainder of the interval since `_last_send`, performs the send (taking
`dur ≥ 0` seconds), and stores the completion time back into `_last_send`. -/

/-- The configured `_send_interval` (bot.py line 151). -/
def sendInterval : ℚ := 6 / 5

/-- Completion time of one `_reply` call: `last` is the stored
`_last_send`, `now` the clock at entry, `dur` the duration of the
`send_chat` call itself.  The new `_last_send` is exactly this value. -/
def replyCompletion (last now dur : ℚ) : ℚ :=
  (if now - last < sendInterval then now + (sendInterval - (now - last)) else now)
    + dur

/-- Completion times of a sequence of `_reply` calls, each described by its
arrival time and its send duration, threading `_last_send` through. -/
def completions (last : ℚ) : List (ℚ × ℚ) → List ℚ
  | [] => []
  | e :: rest =>
    replyCompletion last e.1 e.2 :: completions (replyCompletion last e.1 e.2) rest

/-! ### Session loop (`EventSubBot.run`, `_on_connected`, `_handle_message`,
bot.py lines 154-229)

A connection delivers a finite list of decoded frames.  `_on_connected`
consumes frames until the first `session_welcome` (create one subscription
per broadcaster against the fresh session id, return the default URL) or
`session_reconnect` (return the supplied URL, create nothing); the remaining
frames are handled by `_handle_message`, whose only effects are logging and
forwarding notifications — it can touch neither the `url` variable of `run`
nor the subscription registry. -/

/-- The fixed `EVENTSUB_WS_URL` (bot.py line 38). -/
def EVENTSUB_WS_URL : String :=
  "wss://eventsub.wss.twitch.tv/ws?keepalive_timeout_seconds=30"

/-- The body `create_subscription` submits for one registry entry
(bot.py lines 128-134 and 192-201). -/
structure Subscription where
  subType : String
  version : String
  sessionId : String
  broadcasterUserId : String
  userId : String
deriving DecidableEq

/-- A decoded inbound frame, classified by its `message_type`. -/
inductive Frame where
  | sessionWelcome (sessionId : String)
  | sessionReconnect (reconnectUrl : String)
  | sessionKeepalive
  | notificationMsg (subType : String) (broadcasterUserId : String) (text : String)
  | revocation
  | nonJson
deriving DecidableEq

/-- Observable effect of `_handle_message` on one steady-state frame. -/
inductive SteadyEffect where
  | ignored
  | nonJsonLogged
  | reconnectHintLogged
  | notificationDispatched (subType : String) (broadcasterUserId : String) (text : String)
  | revocationLogged
deriving DecidableEq

/-- `EventSubBot._handle_message` (bot.py lines 211-229): keepalive frames
are dropped, a steady-state `session_reconnect` only prints a hint, a
notification is forwarded, a revocation and a non-JSON frame are logged, and
any other type falls off the end of the method. -/
def handleMessage : Frame → SteadyEffect
  | .nonJson => .nonJsonLogged
  | .sessionKeepalive => .ignored
  | .sessionReconnect _ => .reconnectHintLogged
  | .notificationMsg st b txt => .notificationDispatched st b txt
  | .revocation => .revocationLogged
  | .sessionWelcome _ => .ignored

/-- `EventSubBot._on_connected` (bot.py lines 181-209): scan the handshake
frames; a welcome creates one `channel.chat.message` subscription per
broadcaster against the new session id and returns the default URL, a
reconnect frame returns its URL with no subscriptions.  `none` models the
handshake never completing (timeout / closed connection).  The unconsumed
frames are returned for the steady-state loop. -/
def onConnected (bcs : List (String × String)) (botUserId : String) :
    List Frame → Option (String × List Subscription × List Frame)
  | [] => none
  | f :: rest =>
    match f with
    | .sessionWelcome sid =>
      some (EVENTSUB_WS_URL,
        bcs.map (fun p => ⟨"channel.chat.message", "1", sid, p.2, botUserId⟩),
        rest)
    | .sessionReconnect u => some (u, [], rest)
    | _ => onConnected bcs botUserId rest

/-- One connection episode of `EventSubBot.run` (bot.py lines 163-179): the
URL the next `websockets.connect` call will target, the subscriptions
created during the handshake, and the steady-state effects of the remaining
frames. -/
structure Episode where
  nextUrl : String
  subsCreated : List Subscription
  steadyEffects : List SteadyEffect
deriving DecidableEq

/-- Run one connection episode over the frames the server delivers. -/
def runEpisode (bcs : List (String × String)) (botUserId : String)
    (frames : List Frame) : Option Episode :=
  match onConnected bcs botUserId frames with
  | none => none
  | some (u, subs, rest) => some ⟨u, subs, rest.map handleMessage⟩

/-! ### REST errors and the retry loop (`send_chat`, `create_subscription`,
and the `except` clauses of `EventSubBot.run`, bot.py lines 116-140 and
164-179) -/

/-- The exception classes distinguished by the `except` clauses of `run`. -/
inductive PyException where
  | connectionClosedError
  | keyboardInterrupt
  | runtimeError (msg : String)
deriving DecidableEq

/-- What `run` does after catching an exception. -/
inductive LoopStep where
  | continueAfterDelay
  | stop
deriving DecidableEq

/-- The `except` chain of `EventSubBot.run` (bot.py lines 170-179):
`ConnectionClosedError` prints and retries after 2 s, `KeyboardInterrupt`
returns, and every other `Exception` — `RuntimeError` included — prints and
retries after 2 s. -/
def runLoopCatch : PyException → LoopStep
  | .connectionClosedError => .continueAfterDelay
  | .keyboardInterrupt => .stop
  | .runtimeError _ => .continueAfterDelay

/-- `send_chat` (bot.py lines 116-125) as a function of the HTTP status and
response text: 401 and other `>= 400` statuses raise `RuntimeError`,
anything else returns the response body. -/
def send_chat (status : Nat) (respText : String) : Except PyException String :=
  if status = 401 then
    .error (.runtimeError
      "Unauthorized: check user token and scopes (user:read:chat user:write:chat user:bot)")
  else if 400 ≤ status then
    .error (.runtimeError ("Send chat failed " ++ toString status ++ ": " ++ respText))
  else .ok respText

/-- `create_subscription` (bot.py lines 128-140), same shape as `send_chat`. -/
def create_subscription (status : Nat) (respText : String) :
    Except PyException String :=
  if status = 401 then
    .error (.runtimeError "Unauthorized to create EventSub subscription; check token/scopes")
  else if 400 ≤ status then
    .error (.runtimeError ("Subscription create failed " ++ toString status ++ ": " ++ respText))
  else .ok respText

/-- Whether control stays inside the `async for` receive loop after a
command triggered a chat send. -/
inductive ReceiveLoopOutcome where
  | stayInLoop
  | escape (e : PyException)
deriving DecidableEq

/-- Effect of one steady-state iteration whose command performed a chat send
answered with `status`: no handler between `send_chat` and the `except`
clauses of `run` catches `RuntimeError` (`_handle_message` only catches
`json.JSONDecodeError` around `json.loads`), so an error escapes the
receive loop and exits the connection context. -/
def steadySendOutcome (status : Nat) (respText : String) : ReceiveLoopOutcome :=
  match send_chat status respText with
  | .ok _ => .stayInLoop
  | .error e => .escape e


lemma dropWhile_rdropWhile_of_dropWhile_eq {y : List Char}
    (hy : List.dropWhile isPySpace y = y) :
    List.dropWhile isPySpace (List.rdropWhile isPySpace y)
      = List.rdropWhile isPySpace y := by
  obtain ⟨t, ht⟩ := List.rdropWhile_prefix isPySpace y
  cases hrdw : List.rdropWhile isPySpace y with
  | nil => rfl
  | cons a l =>
    rw [List.dropWhile_cons]
    have hfalse : isPySpace a = false := by
      rw [hrdw] at ht
      have hy2 : y = a :: (l ++ t) := by rw [← ht]; simp
      rw [hy2, List.dropWhile_cons] at hy
      by_contra hcon
      simp only [Bool.not_eq_false] at hcon
      rw [if_pos hcon] at hy
      have hlen := congrArg List.length hy
      have hle : (List.dropWhile isPySpace (l ++ t)).length ≤ (l ++ t).length :=
        List.Sublist.length_le (List.dropWhile_sublist _)
      simp only [List.length_cons] at hlen
      omega
    rw [hfalse]
    simp

lemma stripChars_idem (l : List Char) :
    stripChars (stripChars l) = stripChars l := by
  unfold stripChars
  rw [dropWhile_rdropWhile_of_dropWhile_eq (List.dropWhile_idempotent _ _),
    List.rdropWhile_idempotent]

lemma pyStrip_idem (s : String) : pyStrip (pyStrip s) = pyStrip s := by
  simp [pyStrip, stripChars_idem]

lemma str_append_empty (s : String) : s ++ "" = s := by
  cases s with
  | mk d => show String.mk (d ++ []) = String.mk d; rw [List.append_nil]

lemma pyJoin_empty (l : List String) :
    pyJoin "" l = l.foldr (fun a b => a ++ b) "" := by
  induction l with
  | nil => rfl
  | cons x xs ih =>
    cases xs with
    | nil => exact (str_append_empty x).symm
    | cons y ys =>
      show x ++ "" ++ pyJoin "" (y :: ys) = x ++ (y :: ys).foldr (fun a b => a ++ b) ""
      rw [str_append_empty, ih]


lemma replyCompletion_ge {last now dur : ℚ} (hdur : 0 ≤ dur) :
    last + sendInterval ≤ replyCompletion last now dur := by
  unfold replyCompletion
  split_ifs with h
  · linarith
  · push_neg at h
    linarith

lemma sendInterval_pos : (0 : ℚ) < sendInterval := by norm_num [sendInterval]

lemma completions_mem_ge :
    ∀ (evs : List (ℚ × ℚ)) (last : ℚ), (∀ e ∈ evs, 0 ≤ e.2) →
      ∀ x ∈ completions last evs, last + sendInterval ≤ x := by
  intro evs
  induction evs with
  | nil => intro last _ x hx; simp [completions] at hx
  | cons e rest ih =>
    intro last hdur x hx
    rw [completions] at hx
    rcases List.mem_cons.mp hx with rfl | hx
    · exact replyCompletion_ge (hdur e (List.mem_cons_self e rest))
    · have h1 : last + sendInterval ≤ replyCompletion last e.1 e.2 :=
        replyCompletion_ge (hdur e (List.mem_cons_self e rest))
      have h2 := ih (replyCompletion last e.1 e.2)
        (fun e' he' => hdur e' (List.mem_cons_of_mem e he')) x hx
      have := sendInterval_pos
      linarith

lemma completions_pairwise :
    ∀ (evs : List (ℚ × ℚ)) (last : ℚ), (∀ e ∈ evs, 0 ≤ e.2) →
      (completions last evs).Pairwise (fun a b => a + sendInterval ≤ b) := by
  intro evs
  induction evs with
  | nil => intro last _; simp [completions]
  | cons e rest ih =>
    intro last hdur
    rw [completions]
    refine List.Pairwise.cons ?_ (ih _ (fun e' he' => hdur e' (List.mem_cons_of_mem e he')))
    intro b hb
    exact completions_mem_ge rest (replyCompletion last e.1 e.2)
      (fun e' he' => hdur e' (List.mem_cons_of_mem e he')) b hb


/-- C2: for every pair of outbound sends in a run of `_reply`, the later
completion time is at least the 1.2-second send interval after the earlier
one: the limiter waits out the remainder of the interval since the last
completed send before sending. -/
theorem outbound_send_interval (last : ℚ) (evs : List (ℚ × ℚ))
    (hdur : ∀ e ∈ evs, 0 ≤ e.2)
    (i j : Fin (completions last evs).length) (hij : i < j) :
    (completions last evs).get i + sendInterval ≤ (completions last evs).get j :=
  (List.pairwise_iff_get.mp (completions_pairwise evs last hdur)) i j hij

/-- C2 witness: two back-to-back sends at time 0 complete 1.2 s apart. -/
theorem outbound_send_interval_witness :
    (completions 0 [(0, 0), (0, 0)]).get ⟨0, by decide⟩ + sendInterval
      ≤ (completions 0 [(0, 0), (0, 0)]).get ⟨1, by decide⟩ :=
  outbound_send_interval 0 [(0, 0), (0, 0)]
    (by intro e he; rcases List.mem_cons.mp he with rfl | he; · norm_num
        rcases List.mem_cons.mp he with rfl | he; · norm_num
        · simp at he)
    ⟨0, by decide⟩ ⟨1, by decide⟩ (by decide)


/-- C9: for a structured message with at least one fragment, the flattened
body is the concatenation of the text fields of the fragments in original order
with no separators. -/
theorem flatten_fragments (frags : List Fragment) (txt : Option String)
    (hne : frags ≠ []) :
    extract_plain_text_from_message ⟨frags, txt⟩
      = frags.foldr (fun f acc => f.text.getD "" ++ acc) "" := by
  unfold extract_plain_text_from_message
  rw [if_neg (by simpa using hne)]
  rw [pyJoin_empty, List.foldr_map]
  simp

/-- C9 witness: fragments `["Hello ", "world"]` of type text flatten to
`"Hello world"`. -/
theorem flatten_fragments_witness :
    extract_plain_text_from_message
        ⟨[⟨some "text", some "Hello "⟩, ⟨some "text", some "world"⟩], none⟩
      = "Hello world" :=
  (flatten_fragments [⟨some "text", some "Hello "⟩, ⟨some "text", some "world"⟩]
    none (by decide)).trans (by decide)


/-- C10: `_commands` strips leading and trailing whitespace before
dispatch — behavior only depends on the stripped text, whitespace-wrapped
`!hello` is still recognized, and `None` or whitespace-only text produces
no reply, no collaborator call, and no state change. -/
theorem strip_before_dispatch (t0 : String) (ch : Option String)
    (last now : ℚ) (res : Bool × String) (g : Nat → String) :
    commands (some t0) ch last now res g
        = commands (some (pyStrip t0)) ch last now res g
  ∧ commands (some "  !hello ") ch last now res g
        = ⟨some "Hey there! o/", none, last⟩
  ∧ commands none ch last now res g = ⟨none, none, last⟩
  ∧ commands (some " \t\n ") ch last now res g = ⟨none, none, last⟩ := by
  refine ⟨?_, rfl, rfl, rfl⟩
  unfold commands
  rw [Option.getD_some, Option.getD_some, pyStrip_idem]

/-- C7: command text that starts with the sigil but matches none of the
dispatch tests of `_commands` produces no reply, no lights call, and no
state change. -/
theorem unknown_command_silent (t0 : String) (ch : Option String)
    (last now : ℚ) (res : Bool × String) (g : Nat → String)
    (h0 : strStarts (pyStrip t0) "!" = true)
    (h1 : pyLower (pyStrip t0) ≠ "!hello")
    (h2 : strStarts (pyLower (pyStrip t0)) "!echo " = false)
    (h3 : strStarts (pyLower (pyStrip t0)) "!lights" = false)
    (h4 : pyLower (pyStrip t0) ≠ "!help")
    (h5 : strStarts (pyLower (pyStrip t0)) "!prize" = false) :
    commands (some t0) ch last now res g = ⟨none, none, last⟩ := by
  unfold commands dispatch
  rw [Option.getD_some]
  rw [if_pos h0, if_neg h1, if_neg (by simp [h2]), if_neg (by simp [h3]),
    if_neg h4, if_neg (by simp [h5])]

/-- C7 witness: the unknown command `!xyzzy` is silently ignored. -/
theorem unknown_command_silent_witness :
    commands (some "!xyzzy") (some "bob") 0 17 (true, "ok") (fun _ => "p")
      = ⟨none, none, 0⟩ :=
  unknown_command_silent "!xyzzy" (some "bob") 0 17 (true, "ok") (fun _ => "p")
    (by decide) (by decide) (by decide) (by decide) (by decide) (by decide)


lemma prizeRecipientCount_snd_shape (t : String) (ch : Option String) :
    ∃ c, (prizeRecipientCount t ch).2 = max 1 (min 5 c) :=
  ⟨_, rfl⟩

/-- C6: the `!prize` count is always clamped to `[1, 5]`; positional
parsing gives `!prize 7` five phrases, `!prize 0` one phrase,
`!prize bob 3` (with or without a leading `@`) three phrases for `bob`, and
a bare `!prize` one phrase for the invoking user; the reply is singular for
count 1 and a semicolon-joined list otherwise. -/
theorem prize_clamp_and_examples (t : String) (ch : Option String)
    (g : Nat → String) :
    (1 ≤ (prizeRecipientCount t ch).2 ∧ (prizeRecipientCount t ch).2 ≤ 5)
  ∧ prizeCommand "!prize 7" (some "alice") g
      = "alice receives prizes: " ++ pyJoin "; " [g 0, g 1, g 2, g 3, g 4]
  ∧ prizeCommand "!prize 0" (some "alice") g
      = "alice receives a prize: " ++ g 0
  ∧ prizeCommand "!prize bob 3" (some "alice") g
      = "bob receives prizes: " ++ pyJoin "; " [g 0, g 1, g 2]
  ∧ prizeCommand "!prize @bob 3" (some "alice") g
      = "bob receives prizes: " ++ pyJoin "; " [g 0, g 1, g 2]
  ∧ prizeCommand "!prize" (some "alice") g
      = "alice receives a prize: " ++ g 0 := by
  refine ⟨?_, rfl, rfl, rfl, rfl, rfl⟩
  obtain ⟨c, hc⟩ := prizeRecipientCount_snd_shape t ch
  rw [hc]
  omega


/-- C8 counterexample: invoking `!echo` with empty text (the message
`"!echo "`) yields no reply at all, not an empty echo reply — the trailing
space is stripped before dispatch, so `startswith("!echo ")` fails. -/
theorem echo_empty_text_cex :
    (commands (some "!echo ") (some "alice") 0 17 (true, "ok") (fun _ => "p")).reply
        = none
  ∧ (commands (some "!echo ") (some "alice") 0 17 (true, "ok") (fun _ => "p")).reply
        ≠ some "" :=
  ⟨rfl, by decide⟩

/-- C8 (amended): when the lowercasing of the stripped text starts with
`"!echo "`, the characters after the first six are echoed verbatim (case
and interior spacing preserved); an `!echo` whose argument is empty strips
to `"!echo"`, matches no dispatch test, and produces no reply at all. -/
theorem echo_verbatim_amended (t0 t1 : String) (ch : Option String)
    (last now : ℚ) (res : Bool × String) (g : Nat → String)
    (h0 : strStarts (pyStrip t0) "!" = true)
    (h1 : strStarts (pyLower (pyStrip t0)) "!echo " = true) :
    commands (some t0) ch last now res g
        = ⟨some (strDrop (pyStrip t0) 6), none, last⟩
  ∧ (strStarts (pyStrip t1) "!" = true → pyLower (pyStrip t1) = "!echo" →
      commands (some t1) ch last now res g = ⟨none, none, last⟩) := by
  constructor
  · unfold commands dispatch
    rw [Option.getD_some]
    rw [if_pos h0]
    have hne : pyLower (pyStrip t0) ≠ "!hello" := by
      intro he
      rw [he] at h1
      exact absurd h1 (by decide)
    rw [if_neg hne, if_pos h1]
  · intro ht1 hlow
    unfold commands dispatch
    rw [Option.getD_some]
    rw [if_pos ht1, hlow]
    rw [if_neg (by decide), if_neg (by decide), if_neg (by decide),
      if_neg (by decide), if_neg (by decide)]

/-- C8 witness: `!echo HeLLo  World` echoes `HeLLo  World` verbatim, and
` !echo  ` produces no reply. -/
theorem echo_verbatim_amended_witness :
    commands (some "!echo HeLLo  World") (some "a") 0 17 (true, "ok") (fun _ => "p")
        = ⟨some (strDrop (pyStrip "!echo HeLLo  World") 6), none, 0⟩
  ∧ commands (some " !echo  ") (some "a") 0 17 (true, "ok") (fun _ => "p")
        = ⟨none, none, 0⟩ := by
  obtain ⟨hmain, hempty⟩ :=
    echo_verbatim_amended "!echo HeLLo  World" " !echo  " (some "a") 0 17
      (true, "ok") (fun _ => "p") (by decide) (by decide)
  exact ⟨hmain, hempty (by decide) (by decide)⟩


/-- C3: with a nonempty value, `!lights` is gated by the single global
300-second cooldown measured from `_last_lights`: within the cooldown it
replies with the remaining minutes and seconds, makes no passthrough call
and leaves the clock alone; once elapsed it calls the passthrough with the
value, resets the clock to the invocation time exactly when the call
succeeds, and on failure reports the failure text and leaves the clock
unchanged — so an immediate retry after a failure calls the passthrough
again. -/
theorem lights_cooldown_gate (last now : ℚ) (arg : String)
    (res : Bool × String) (harg : arg ≠ "") :
    (now - last < 300 →
      lightsCommand last now arg res
        = ⟨some ("Lights cooldown: try again in "
            ++ toString (pyFloorDiv ((300 : ℚ) - (now - last)) 60) ++ "m "
            ++ toString (pyFloorMod ((300 : ℚ) - (now - last)) 60) ++ "s"),
          none, last⟩)
  ∧ (300 ≤ now - last →
        (res.1 = true →
          lightsCommand last now arg res
            = ⟨some ("Lights set to " ++ arg), some arg, now⟩)
      ∧ (res.1 = false →
          lightsCommand last now arg res
            = ⟨some ("Lights error: " ++ res.2), some arg, last⟩)
      ∧ (res.1 = false → ∀ res2 : Bool × String, res2.1 = true →
          (lightsCommand (lightsCommand last now arg res).lastLights now arg res2).lightsCall
            = some arg)) := by
  constructor
  · intro hcool
    unfold lightsCommand
    rw [if_neg harg, if_pos (by linarith)]
  · intro helapsed
    have hnot : ¬ (0 < (300 : ℚ) - (now - last)) := by linarith
    refine ⟨?_, ?_, ?_⟩
    · intro hok
      unfold lightsCommand
      rw [if_neg harg, if_neg hnot, if_pos hok]
    · intro hfail
      unfold lightsCommand
      rw [if_neg harg, if_neg hnot, if_neg (by simp [hfail])]
    · intro hfail res2 hok2
      have hfirst : lightsCommand last now arg res
          = ⟨some ("Lights error: " ++ res.2), some arg, last⟩ := by
        unfold lightsCommand
        rw [if_neg harg, if_neg hnot, if_neg (by simp [hfail])]
      rw [hfirst]
      show (lightsCommand last now arg res2).lightsCall = some arg
      unfold lightsCommand
      rw [if_neg harg, if_neg hnot, if_pos hok2]

/-- C3 witness: at 12 s after a success the gate replies with the remaining
4 m 48 s and does not call the passthrough. -/
theorem lights_cooldown_gate_witness :
    lightsCommand 0 12 "red" (true, "ok")
      = ⟨some ("Lights cooldown: try again in "
          ++ toString (pyFloorDiv ((300 : ℚ) - ((12 : ℚ) - 0)) 60) ++ "m "
          ++ toString (pyFloorMod ((300 : ℚ) - ((12 : ℚ) - 0)) 60) ++ "s"),
        none, 0⟩ :=
  (lights_cooldown_gate 0 12 "red" (true, "ok") (by decide)).1 (by norm_num)


/-- C1 counterexample: a server-requested reconnect frame received in the
ACTIVE receive loop (after the welcome) is merely logged; the next connection URL
of the episode stays the default `EVENTSUB_WS_URL`, not the URL supplied in
the frame, and the only subscriptions ever created in the episode target the
old session id. -/
theorem active_reconnect_url_ignored_cex :
    runEpisode [("alice", "123")] "42"
        [Frame.sessionWelcome "s1", Frame.sessionReconnect "wss://example.com/new"]
      = some ⟨EVENTSUB_WS_URL,
          [⟨"channel.chat.message", "1", "s1", "123", "42"⟩],
          [SteadyEffect.reconnectHintLogged]⟩
  ∧ EVENTSUB_WS_URL ≠ "wss://example.com/new" :=
  ⟨rfl, by decide⟩

/-- C1 (amended): in the ACTIVE loop `_handle_message` only logs a
reconnect frame; a reconnect URL is honored only when the frame arrives
during the pre-welcome handshake, in which case the next connection attempt
targets it with no subscriptions created; on every welcome the full registry
is submitted exactly once — one subscription per broadcaster — against the
new session id before the steady-state frames are processed. -/
theorem reconnect_url_handshake_only (bcs : List (String × String))
    (bot sid u : String) (rest : List Frame) :
    handleMessage (Frame.sessionReconnect u) = SteadyEffect.reconnectHintLogged
  ∧ runEpisode bcs bot (Frame.sessionWelcome sid :: rest)
      = some ⟨EVENTSUB_WS_URL,
          bcs.map (fun p => ⟨"channel.chat.message", "1", sid, p.2, bot⟩),
          rest.map handleMessage⟩
  ∧ runEpisode bcs bot (Frame.sessionReconnect u :: rest)
      = some ⟨u, [], rest.map handleMessage⟩ :=
  ⟨rfl, rfl, rfl⟩

/-- C4 counterexample: a 401 from `send_chat` or `create_subscription`
raises `RuntimeError`, which the generic `except Exception` clause of `run`
catches and retries after a delay — the loop step is not `stop`, so the
process does not halt on an authorization failure. -/
theorem auth_failure_not_fatal_cex :
    send_chat 401 "" = Except.error (PyException.runtimeError
      "Unauthorized: check user token and scopes (user:read:chat user:write:chat user:bot)")
  ∧ create_subscription 401 "" = Except.error (PyException.runtimeError
      "Unauthorized to create EventSub subscription; check token/scopes")
  ∧ runLoopCatch (PyException.runtimeError
      "Unauthorized: check user token and scopes (user:read:chat user:write:chat user:bot)")
      = LoopStep.continueAfterDelay
  ∧ runLoopCatch (PyException.runtimeError
      "Unauthorized to create EventSub subscription; check token/scopes")
      = LoopStep.continueAfterDelay
  ∧ LoopStep.continueAfterDelay ≠ LoopStep.stop :=
  ⟨rfl, rfl, rfl, rfl, by decide⟩

/-- C4 (amended): a 401 during subscription creation or chat sending raises
an authorization `RuntimeError`; `run` treats it like any other exception —
it is logged and the loop retries after the 2-second delay; the process
does not stop. -/
theorem auth_failure_retried (txt : String) :
    (∃ e, send_chat 401 txt = Except.error e
        ∧ runLoopCatch e = LoopStep.continueAfterDelay)
  ∧ (∃ e, create_subscription 401 txt = Except.error e
        ∧ runLoopCatch e = LoopStep.continueAfterDelay) :=
  ⟨⟨_, rfl, rfl⟩, ⟨_, rfl, rfl⟩⟩

/-- C5 counterexample: a chat send failing with status 500 raises a
`RuntimeError` that escapes the steady-state receive loop (the connection
context is exited) — the session does not stay in its receive loop, and the
run loop then reconnects after a delay. -/
theorem send_failure_not_contained_cex :
    steadySendOutcome 500 "oops"
      = ReceiveLoopOutcome.escape (PyException.runtimeError "Send chat failed 500: oops")
  ∧ runLoopCatch (PyException.runtimeError "Send chat failed 500: oops")
      = LoopStep.continueAfterDelay
  ∧ ReceiveLoopOutcome.escape (PyException.runtimeError "Send chat failed 500: oops")
      ≠ ReceiveLoopOutcome.stayInLoop :=
  ⟨rfl, rfl, by decide⟩

/-- C5 (amended): every non-401 4xx/5xx chat send raises a `RuntimeError`
that escapes the receive loop, so the connection is torn down; `run` logs it
and reconnects after the 2-second delay; the effect of the triggering command is
dropped with no chat-visible report. -/
theorem send_failure_escapes (status : Nat) (txt : String)
    (h1 : 400 ≤ status) (h2 : status ≠ 401) :
    steadySendOutcome status txt
      = ReceiveLoopOutcome.escape (PyException.runtimeError
          ("Send chat failed " ++ toString status ++ ": " ++ txt))
  ∧ runLoopCatch (PyException.runtimeError
        ("Send chat failed " ++ toString status ++ ": " ++ txt))
      = LoopStep.continueAfterDelay := by
  unfold steadySendOutcome send_chat
  rw [if_neg h2, if_pos h1]
  exact ⟨rfl, rfl⟩

/-- C5 witness: status 500 with body `oops`. -/
theorem send_failure_escapes_witness :
    steadySendOutcome 500 "oops"
      = ReceiveLoopOutcome.escape (PyException.runtimeError
          ("Send chat failed " ++ toString 500 ++ ": " ++ "oops"))
  ∧ runLoopCatch (PyException.runtimeError
        ("Send chat failed " ++ toString 500 ++ ": " ++ "oops"))
      = LoopStep.continueAfterDelay :=
  send_failure_escapes 500 "oops" (by decide) (by decide)

end TwitchBot
